import Mathlib

/-!
Verification of the pseudo-METAR pipeline (`metar.py`).

The development shallowly embeds the pipeline: payload values are exact
rationals, Python's builtin `round` (banker's rounding) is `pyRound`,
Python's `str.zfill` is `pyZfill`, dictionaries with string keys are
association lists, and the trigonometric runway decomposition lives in `ℝ`.
-/

set_option maxHeartbeats 1000000
set_option linter.unusedTactic false

/-! ### Python primitives -/

/-- Python's builtin `round`: round half to even (banker's rounding). -/
def pyRound {α : Type} [LinearOrderedField α] [FloorRing α] [DecidableEq α] (x : α) : ℤ :=
  if Int.fract x = 1/2 then (if ⌊x⌋ % 2 = 0 then ⌊x⌋ else ⌊x⌋ + 1) else round x

/-- Python's `str.zfill`: left-pad with `'0'` up to `width`, keeping a leading sign. -/
def pyZfill (s : String) (width : Nat) : String :=
  if width ≤ s.length then s
  else
    match s.data with
    | '-' :: rest => ⟨'-' :: (List.replicate (width - s.length) '0' ++ rest)⟩
    | _ => ⟨List.replicate (width - s.length) '0' ++ s.data⟩

/-- Association-list lookup, mirroring Python `dict` access on string keys. -/
def lookupA {β : Type} : List (String × β) → String → Option β
  | [], _ => none
  | (k, v) :: rest, key => if k = key then some v else lookupA rest key

/-- Association-list in-place update of an existing key (Python `d[k] = v`). -/
def updateA {β : Type} : List (String × β) → String → β → List (String × β)
  | [], _, _ => []
  | (k, v) :: rest, key, nv =>
    if k = key then (k, nv) :: rest else (k, v) :: updateA rest key nv

/-- Single-character `str.replace`, used for `observed.replace("Z", "+00:00")`. -/
def pyReplace1 (pat : Char) (rep : List Char) : List Char → List Char
  | [] => []
  | c :: cs => if c = pat then rep ++ pyReplace1 pat rep cs else c :: pyReplace1 pat rep cs

def strReplaceChar (s : String) (pat : Char) (rep : String) : String :=
  ⟨pyReplace1 pat rep.data s.data⟩

/-! ### Data model: provider payloads -/

/-- One entry of the provider's feature list: `feat["properties"]`. -/
structure Feature where
  parameterId : String
  value : ℚ
  observed : String
deriving DecidableEq

/-- The decoded provider response: `payload["features"]`. -/
structure Payload where
  features : List Feature
deriving DecidableEq

/-- The table `PARAMS`: provider parameter id ➜ internal field name. -/
def PARAMS : List (String × String) :=
  [("temp_dew", "temp_dew_c"),
   ("temp_dry", "temp_dry_c"),
   ("visib_mean_last10min", "visibility_m"),
   ("pressure_at_sea", "qnh_hpa"),
   ("wind_dir", "wind_dir_deg"),
   ("wind_speed", "wind_speed_ms"),
   ("wind_max", "wind_gust_ms"),
   ("cloud_cover", "cloud_cover_pct"),
   ("cloud_height", "cloud_height_m")]

/-- The table `STATIONS`: DMI id ➜ ICAO. -/
def STATIONS : List (String × String) :=
  [("06170", "EKRK"), ("06156", "EKHK")]

/-! ### Value extractor (`latest_values`) -/

/-- The initial result dict `{alias: -1 for alias in PARAMS.values()}`. -/
def lv_init : List (String × ℚ) := PARAMS.map (fun p => (p.2, (-1 : ℚ)))

/-- The early-exit condition `all(v != -1 for v in result.values())`. -/
def allSet (r : List (String × ℚ)) : Bool := r.all (fun p => p.2 ≠ -1)

/-- The scan loop of `latest_values`: set a tracked field on its first
still-sentinel occurrence, and break once every field is set. -/
def latest_go : List Feature → List (String × ℚ) → List (String × ℚ)
  | [], r => r
  | f :: rest, r =>
    match lookupA PARAMS f.parameterId with
    | none => latest_go rest r
    | some al =>
      if lookupA r al = some (-1) then
        let r1 := updateA r al f.value
        if allSet r1 then r1 else latest_go rest r1
      else latest_go rest r

/-- The extractor `latest_values(payload)`. -/
def latest_values (payload : Payload) : List (String × ℚ) :=
  latest_go payload.features lv_init

/-- The values carried by the features of one parameter id, in payload order. -/
def occValues (pid : String) (feats : List Feature) : List ℚ :=
  (feats.filter (fun f => f.parameterId == pid)).map Feature.value

/-- First value different from the sentinel `-1`, or `-1` when there is none. -/
def firstNonSentV : List ℚ → ℚ
  | [] => -1
  | v :: l => if v = -1 then firstNonSentV l else v

/-! ### Domain-specific calculations -/

/-- The conversion `kt(ms)`: metre/sec ➜ knots. -/
def kt (ms : ℚ) : ℚ := ms * 1.94384

/-- The cover-code mapping `cloud_code(cover)`. -/
def cloud_code (cover : ℚ) : String :=
  if cover ≤ 0 then "NCD"
  else if cover ≤ 10 then "SKC"
  else if cover ≤ 25 then "FEW"
  else if cover ≤ 50 then "SCT"
  else if cover ≤ 90 then "BKN"
  else "OVC"

/-- The angular offset computed inside `runway_and_components`. -/
def offsetOf (wdir : ℚ) : ℚ :=
  if 10 < wdir ∧ wdir < 190 then wdir - 100
  else if wdir ≥ 190 then wdir - 280 else wdir + 80

/-- The runway number computed inside `runway_and_components`. -/
def runwayOf (wdir : ℚ) : ℤ :=
  if 10 < wdir ∧ wdir < 190 then 10 else 28

/-- Degrees to radians, `math.radians`. -/
noncomputable def radians (x : ℝ) : ℝ := x * Real.pi / 180

/-- The four keys returned by `runway_and_components`. -/
structure RunwayComponents where
  runway : String
  headwind_kt : ℤ
  crosswind_kt : ℤ
  crosswind_from : String

/-- The decomposition `runway_and_components(wdir, wspd_ms)`. -/
noncomputable def runway_and_components (wdir wspd_ms : ℚ) : RunwayComponents :=
  let offset := offsetOf wdir
  let wspd := kt wspd_ms
  let av_rad := radians (offset : ℝ)
  { runway := toString (runwayOf wdir)
    headwind_kt := |pyRound (Real.cos av_rad * (wspd : ℝ))|
    crosswind_kt := |pyRound (Real.sin av_rad * (wspd : ℝ))|
    crosswind_from := if offset < 0 then "left" else "right" }

/-! ### Timestamps (`datetime.fromisoformat` / `isoformat` / `strftime`) -/

/-- Two decimal digit characters to a number. -/
def d2n (a b : Char) : Option ℕ :=
  if a.isDigit ∧ b.isDigit then some ((a.toNat - 48) * 10 + (b.toNat - 48)) else none

/-- Four decimal digit characters to a number. -/
def d4n (a b c d : Char) : Option ℕ :=
  match d2n a b, d2n c d with
  | some hi, some lo => some (hi * 100 + lo)
  | _, _ => none

/-- The slice of `datetime` the pipeline uses: a wall-clock timestamp with an
optional fixed UTC offset (sign, hours, minutes). -/
structure PyDateTime where
  year : ℕ
  month : ℕ
  day : ℕ
  hour : ℕ
  minute : ℕ
  second : ℕ
  utcoffset : Option (Char × ℕ × ℕ)
deriving DecidableEq

/-- Parsing, `datetime.fromisoformat`, modelled for the shapes the pipeline feeds it:
`YYYY-MM-DDTHH:MM:SS` optionally followed by `±HH:MM`. -/
def fromisoformat (s : String) : Option PyDateTime :=
  match s.data with
  | [y1, y2, y3, y4, '-', m1, m2, '-', a1, a2, 'T', h1, h2, ':', n1, n2, ':', e1, e2] =>
    match d4n y1 y2 y3 y4, d2n m1 m2, d2n a1 a2, d2n h1 h2, d2n n1 n2, d2n e1 e2 with
    | some y, some mo, some da, some ho, some mi, some se =>
      some ⟨y, mo, da, ho, mi, se, none⟩
    | _, _, _, _, _, _ => none
  | [y1, y2, y3, y4, '-', m1, m2, '-', a1, a2, 'T', h1, h2, ':', n1, n2, ':', e1, e2,
     sg, o1, o2, ':', o3, o4] =>
    if sg = '+' ∨ sg = '-' then
      match d4n y1 y2 y3 y4, d2n m1 m2, d2n a1 a2, d2n h1 h2, d2n n1 n2, d2n e1 e2,
            d2n o1 o2, d2n o3 o4 with
      | some y, some mo, some da, some ho, some mi, some se, some oh, some om =>
        some ⟨y, mo, da, ho, mi, se, some (sg, oh, om)⟩
      | _, _, _, _, _, _, _, _ => none
    else none
  | _ => none

/-- Rendering, `datetime.isoformat(timespec="seconds")`. -/
def isoformatSeconds (dt : PyDateTime) : String :=
  pyZfill (toString dt.year) 4 ++ "-" ++ pyZfill (toString dt.month) 2 ++ "-" ++
  pyZfill (toString dt.day) 2 ++ "T" ++ pyZfill (toString dt.hour) 2 ++ ":" ++
  pyZfill (toString dt.minute) 2 ++ ":" ++ pyZfill (toString dt.second) 2 ++
  (match dt.utcoffset with
   | none => ""
   | some (sg, oh, om) => String.mk [sg] ++ pyZfill (toString oh) 2 ++ ":" ++ pyZfill (toString om) 2)

/-- Rendering, `datetime.strftime("%d%H%MZ")`. -/
def strftimeDayHourMinZ (dt : PyDateTime) : String :=
  pyZfill (toString dt.day) 2 ++ pyZfill (toString dt.hour) 2 ++ pyZfill (toString dt.minute) 2 ++ "Z"

/-! ### Report builder (`build_metar_dict`) -/

/-- The structured record, with the fields of `build_metar_dict`'s result dict
(also spelled out by the repository's commented-out `MetarData` dataclass). -/
structure MetarData where
  station : String
  observed : String
  temp_dew_c : ℚ
  temp_dry_c : ℚ
  visibility_m : ℚ
  qnh_hpa : ℚ
  wind_dir_deg : ℚ
  wind_speed_ms : ℚ
  wind_gust_ms : ℚ
  cloud_cover_pct : ℚ
  cloud_height_m : ℚ
  wind_speed_kt : ℤ
  wind_gust_kt : ℤ
  cloud_code : String
  cloud_height_ft : Option ℤ
  runway : String
  headwind_kt : ℤ
  crosswind_kt : ℤ
  crosswind_from : String

/-- The record assembled by `build_metar_dict` once the observation timestamp
has parsed. The `getD (-1)` on value lookups is never exercised: the
extractor's result has every alias as a key. -/
noncomputable def build_fields (station_id : String) (raw : Payload) (dt : PyDateTime) :
    MetarData :=
  let vals := latest_values raw
  let v := fun al => (lookupA vals al).getD (-1)
  let rc := runway_and_components (v "wind_dir_deg") (v "wind_speed_ms")
  { station := (lookupA STATIONS station_id).getD station_id
    observed := isoformatSeconds dt
    temp_dew_c := v "temp_dew_c"
    temp_dry_c := v "temp_dry_c"
    visibility_m := v "visibility_m"
    qnh_hpa := v "qnh_hpa"
    wind_dir_deg := v "wind_dir_deg"
    wind_speed_ms := v "wind_speed_ms"
    wind_gust_ms := v "wind_gust_ms"
    cloud_cover_pct := v "cloud_cover_pct"
    cloud_height_m := v "cloud_height_m"
    wind_speed_kt := pyRound (kt (v "wind_speed_ms"))
    wind_gust_kt := pyRound (kt (v "wind_gust_ms"))
    cloud_code := cloud_code (v "cloud_cover_pct")
    cloud_height_ft :=
      if v "cloud_height_m" > 15 then some (pyRound (v "cloud_height_m" * 3.28084)) else none
    runway := rc.runway
    headwind_kt := rc.headwind_kt
    crosswind_kt := rc.crosswind_kt
    crosswind_from := rc.crosswind_from }

/-- The builder `build_metar_dict(station_id, raw)`; `none` models a raised `DecodeError`
(empty feature list or an unparsable observation timestamp). -/
noncomputable def build_metar_dict (station_id : String) (raw : Payload) : Option MetarData :=
  match raw.features with
  | [] => none
  | f0 :: _ =>
    Option.map (build_fields station_id raw)
      (fromisoformat (strReplaceChar f0.observed 'Z' "+00:00"))

/-! ### Batch orchestration (`get_metar`) -/

/-- One iteration of `get_metar`'s loop body: the `try` block with both
`except` arms collapsing a fetch or decode failure into a skip. -/
noncomputable def processStation (fetch : String → Except String Payload) (sid : String) :
    Option MetarData :=
  match fetch sid with
  | .error _ => none
  | .ok raw => build_metar_dict sid raw

/-- The batch `get_metar(station_ids)`, abstracted over the HTTP fetch. -/
noncomputable def get_metar (fetch : String → Except String Payload)
    (station_ids : List String) : List MetarData :=
  let ids := if station_ids.isEmpty then STATIONS.map Prod.fst else station_ids
  ids.filterMap (processStation fetch)

/-! ### Formatter (`metar_string`) -/

/-- The `gust` string of `metar_string`. -/
def metar_gust (d : MetarData) : String :=
  if d.wind_gust_kt - d.wind_speed_kt > 10 then "G" ++ pyZfill (toString d.wind_gust_kt) 2 else ""

/-- The wind line of `metar_string`:
`f"{str(wdir).zfill(3)}{wspd}{'G' if gust else ''}{gust}KT \n"`. -/
def wind_line (d : MetarData) : String :=
  pyZfill (toString (pyRound (d.wind_dir_deg / 10) * 10)) 3 ++
  pyZfill (toString d.wind_speed_kt) 2 ++
  (if metar_gust d ≠ "" then "G" else "") ++ metar_gust d ++ "KT \n"

/-- The `clouds` token: the cover code, with `height_ft // 100` appended when
the code is not `"SKC"` and the height is present and non-zero (Python truthiness). -/
def clouds_token (d : MetarData) : String :=
  match d.cloud_height_ft with
  | none => d.cloud_code
  | some ft =>
    if d.cloud_code ≠ "SKC" ∧ ft ≠ 0 then d.cloud_code ++ pyZfill (toString (Int.fdiv ft 100)) 3
    else d.cloud_code

/-- The `vis` token of `metar_string`. -/
def vis_token (v : ℚ) : String :=
  if v > 9999 then "9999"
  else if v < 100 then "0000"
  else pyZfill (toString ⌊v / 100⌋) 2 ++ "00"

/-- The `temp_dew` token of `metar_string`. -/
def temp_dew_token (d : MetarData) : String :=
  toString (pyRound d.temp_dry_c) ++ "/" ++ toString (pyRound d.temp_dew_c)

/-- The `qnh` token of `metar_string`. -/
def qnh_token (d : MetarData) : String :=
  "Q" ++ toString (pyRound d.qnh_hpa)

/-- The `rwy` block of `metar_string`. -/
def rwy_block (d : MetarData) : String :=
  "R" ++ (d.runway ++ (" HW" ++ (pyZfill (toString d.headwind_kt) 2 ++ (" XW" ++
  ((if d.crosswind_from = "right" then "←" else "→") ++ pyZfill (toString d.crosswind_kt) 2)))))

/-- The formatter `metar_string(d)`; `none` models `fromisoformat` raising on a malformed
`observed` field. -/
def metar_string (d : MetarData) : Option String :=
  Option.map (fun dt =>
    d.station ++ (" METAR " ++ (strftimeDayHourMinZ dt ++ (" \n" ++
      (wind_line d ++ (vis_token d.visibility_m ++ (" " ++ (clouds_token d ++ (" " ++
      (qnh_token d ++ (" " ++ (temp_dew_token d ++ (" \n " ++ (rwy_block d ++ "\n"))))))))))))))
    (fromisoformat d.observed)

/-! ### Lemmas about `pyRound` -/

theorem pyRound_intCast {α : Type} [LinearOrderedField α] [FloorRing α] [DecidableEq α]
    (n : ℤ) : pyRound ((n : α)) = n := by
  rw [pyRound, if_neg (by rw [Int.fract_intCast]; norm_num), round_intCast]

theorem pyRound_zero {α : Type} [LinearOrderedField α] [FloorRing α] [DecidableEq α] :
    pyRound (0 : α) = 0 := by
  simpa using pyRound_intCast (α := α) 0

theorem pyRound_neg {α : Type} [LinearOrderedField α] [FloorRing α] [DecidableEq α]
    (x : α) : pyRound (-x) = -pyRound x := by
  by_cases h0 : Int.fract x = 0
  · obtain ⟨n, rfl⟩ : ∃ n : ℤ, x = (n : α) :=
      ⟨⌊x⌋, by have := Int.floor_add_fract x; rw [h0, add_zero] at this; exact this.symm⟩
    rw [← Int.cast_neg, pyRound_intCast, pyRound_intCast]
  · have hf0 : (0 : α) < Int.fract x := lt_of_le_of_ne (Int.fract_nonneg x) (Ne.symm h0)
    have hf1 : Int.fract x < 1 := Int.fract_lt_one x
    have hxf : (⌊x⌋ : α) + Int.fract x = x := Int.floor_add_fract x
    have hceil : ⌈x⌉ = ⌊x⌋ + 1 := by
      refine Int.ceil_eq_iff.mpr ⟨?_, ?_⟩ <;> push_cast <;> linarith
    by_cases h : Int.fract x = 1/2
    · have hneg : Int.fract (-x) = 1/2 := by rw [Int.fract_neg h0, h]; norm_num
      rw [pyRound, pyRound, if_pos h, if_pos hneg, Int.floor_neg, hceil]
      by_cases hn : ⌊x⌋ % 2 = 0
      · rw [if_pos hn, if_neg (by omega)]; ring
      · rw [if_neg hn, if_pos (by omega)]
    · have hneg : Int.fract (-x) ≠ 1/2 := by
        rw [Int.fract_neg h0]; intro hc; apply h; linarith
      rw [pyRound, pyRound, if_neg h, if_neg hneg, round_eq, round_eq]
      rcases lt_or_gt_of_ne h with hlt | hgt
      · have l1 : ⌊x + 1/2⌋ = ⌊x⌋ := by
          refine Int.floor_eq_iff.mpr ⟨?_, ?_⟩ <;> · push_cast; linarith
        have l2 : ⌊-x + 1/2⌋ = -⌊x⌋ := by
          refine Int.floor_eq_iff.mpr ⟨?_, ?_⟩ <;> · push_cast; linarith
        rw [l1, l2]
      · have l1 : ⌊x + 1/2⌋ = ⌊x⌋ + 1 := by
          refine Int.floor_eq_iff.mpr ⟨?_, ?_⟩ <;> · push_cast; linarith
        have l2 : ⌊-x + 1/2⌋ = -(⌊x⌋ + 1) := by
          refine Int.floor_eq_iff.mpr ⟨?_, ?_⟩ <;> · push_cast; linarith
        rw [l1, l2]

theorem pyRound_nonneg {α : Type} [LinearOrderedField α] [FloorRing α] [DecidableEq α]
    {x : α} (hx : 0 ≤ x) : 0 ≤ pyRound x := by
  rw [pyRound]
  by_cases h : Int.fract x = 1/2
  · have hfl : (0:ℤ) ≤ ⌊x⌋ := by
      have hxf : (⌊x⌋ : α) + Int.fract x = x := Int.floor_add_fract x
      have h1 : (-1 : α) < (⌊x⌋ : α) := by rw [h] at hxf; linarith
      have h2 : (-1 : ℤ) < ⌊x⌋ := by exact_mod_cast h1
      omega
    rw [if_pos h]
    by_cases hn : ⌊x⌋ % 2 = 0 <;> simp [hn] <;> omega
  · rw [if_neg h, round_eq]
    exact Int.floor_nonneg.mpr (by linarith)

theorem pyRound_nonpos {α : Type} [LinearOrderedField α] [FloorRing α] [DecidableEq α]
    {x : α} (hx : x ≤ 0) : pyRound x ≤ 0 := by
  have h := pyRound_nonneg (x := -x) (by linarith)
  rw [pyRound_neg] at h
  omega

theorem pyRound_abs {α : Type} [LinearOrderedField α] [FloorRing α] [DecidableEq α]
    (x : α) : pyRound |x| = |pyRound x| := by
  rcases le_or_lt 0 x with h | h
  · rw [abs_of_nonneg h, abs_of_nonneg (pyRound_nonneg h)]
  · rw [abs_of_neg h, pyRound_neg, abs_of_nonpos (pyRound_nonpos h.le)]

/-! ### Lemmas about association lists and the extractor -/

theorem latest_go_nil (r : List (String × ℚ)) : latest_go [] r = r := rfl

theorem latest_go_cons_none {f : Feature} (rest : List Feature) (r : List (String × ℚ))
    (h : lookupA PARAMS f.parameterId = none) :
    latest_go (f :: rest) r = latest_go rest r := by
  rw [latest_go, h]

theorem latest_go_cons_some {f : Feature} (rest : List Feature) (r : List (String × ℚ))
    {al : String} (h : lookupA PARAMS f.parameterId = some al) :
    latest_go (f :: rest) r =
      if lookupA r al = some (-1) then
        (if allSet (updateA r al f.value) then updateA r al f.value
         else latest_go rest (updateA r al f.value))
      else latest_go rest r := by
  rw [latest_go, h]

theorem lookupA_mem {β : Type} {l : List (String × β)} {k : String} {v : β}
    (h : lookupA l k = some v) : (k, v) ∈ l := by
  induction l with
  | nil => simp [lookupA] at h
  | cons p rest ih =>
    obtain ⟨k1, v1⟩ := p
    rw [lookupA] at h
    by_cases hk : k1 = k
    · rw [if_pos hk] at h
      obtain rfl := Option.some.inj h
      subst hk
      exact List.mem_cons_self _ _
    · rw [if_neg hk] at h
      exact List.mem_cons_of_mem _ (ih h)

theorem lookupA_updateA_self {β : Type} {l : List (String × β)} {k : String} {w : β}
    (h : lookupA l k = some w) (v : β) : lookupA (updateA l k v) k = some v := by
  induction l with
  | nil => simp [lookupA] at h
  | cons p rest ih =>
    obtain ⟨k1, v1⟩ := p
    rw [lookupA] at h
    rw [updateA]
    by_cases hk : k1 = k
    · rw [if_pos hk, lookupA, if_pos hk]
    · rw [if_neg hk] at h
      rw [if_neg hk, lookupA, if_neg hk]
      exact ih h

theorem lookupA_updateA_other {β : Type} (l : List (String × β)) {k key : String}
    (hne : k ≠ key) (v : β) : lookupA (updateA l key v) k = lookupA l k := by
  induction l with
  | nil => rfl
  | cons p rest ih =>
    obtain ⟨k1, v1⟩ := p
    rw [updateA]
    by_cases hk : k1 = key
    · rw [if_pos hk, lookupA, lookupA]
      have hkk : ¬ k1 = k := by rw [hk]; exact fun hh => hne hh.symm
      rw [if_neg hkk, if_neg hkk]
    · rw [if_neg hk, lookupA, lookupA]
      by_cases h2 : k1 = k
      · rw [if_pos h2, if_pos h2]
      · rw [if_neg h2, if_neg h2]
        exact ih

theorem updateA_keys {β : Type} (l : List (String × β)) (key : String) (v : β) :
    (updateA l key v).map Prod.fst = l.map Prod.fst := by
  induction l with
  | nil => rfl
  | cons p rest ih =>
    obtain ⟨k1, v1⟩ := p
    rw [updateA]
    by_cases hk : k1 = key
    · rw [if_pos hk]
      rfl
    · rw [if_neg hk]
      simp [ih]

theorem allSet_lookup {r : List (String × ℚ)} (h : allSet r = true) (k : String) :
    lookupA r k ≠ some (-1) := by
  intro hc
  have hm := lookupA_mem hc
  have hval := List.all_eq_true.mp h _ hm
  simp at hval

theorem latest_go_keys (feats : List Feature) (r : List (String × ℚ)) :
    (latest_go feats r).map Prod.fst = r.map Prod.fst := by
  induction feats generalizing r with
  | nil => rfl
  | cons f rest ih =>
    rcases hP : lookupA PARAMS f.parameterId with _ | al
    · rw [latest_go_cons_none rest r hP]
      exact ih r
    · rw [latest_go_cons_some rest r hP]
      by_cases hc : lookupA r al = some (-1)
      · rw [if_pos hc]
        by_cases hAS : allSet (updateA r al f.value) = true
        · rw [if_pos hAS, updateA_keys]
        · rw [if_neg hAS, ih, updateA_keys]
      · rw [if_neg hc]
        exact ih r

theorem params_lookup_of_mem {pid al : String} (h : (pid, al) ∈ PARAMS) :
    lookupA PARAMS pid = some al := by
  fin_cases h <;> decide

theorem params_snd_inj {p q : String × String} (hp : p ∈ PARAMS) (hq : q ∈ PARAMS)
    (h : p.2 = q.2) : p.1 = q.1 := by
  fin_cases hp <;> fin_cases hq <;> simp_all

theorem latest_go_char {pid al : String}
    (h1 : lookupA PARAMS pid = some al)
    (h2 : ∀ q, lookupA PARAMS q = some al → q = pid) :
    ∀ (feats : List Feature) (r : List (String × ℚ)) (c : ℚ),
      lookupA r al = some c →
      lookupA (latest_go feats r) al =
        some (if c = -1 then firstNonSentV (occValues pid feats) else c) := by
  intro feats
  induction feats with
  | nil =>
    intro r c hc
    simp only [latest_go, occValues, List.filter_nil, List.map_nil, firstNonSentV]
    rw [hc]
    by_cases h : c = -1 <;> simp [h]
  | cons f rest ih =>
    intro r c hc
    rcases hP : lookupA PARAMS f.parameterId with _ | a2
    · have hne : f.parameterId ≠ pid := by
        intro he
        rw [he, h1] at hP
        exact Option.noConfusion hP
      have hocc : occValues pid (f :: rest) = occValues pid rest := by
        simp [occValues, List.filter_cons, hne]
      rw [latest_go_cons_none rest r hP, hocc]
      exact ih r c hc
    · rw [latest_go_cons_some rest r hP]
      by_cases ha : a2 = al
      · subst ha
        have hfpid : f.parameterId = pid := h2 _ hP
        have hocc : occValues pid (f :: rest) = f.value :: occValues pid rest := by
          simp [occValues, List.filter_cons, hfpid]
      
        rw [hocc]
        by_cases hcm : c = -1
        · subst hcm
          rw [if_pos hc]
          have hlook : lookupA (updateA r a2 f.value) a2 = some f.value :=
            lookupA_updateA_self hc f.value
          by_cases hAS : allSet (updateA r a2 f.value) = true
          · rw [if_pos hAS]
            have hnv : f.value ≠ -1 := by
              intro hv
              exact allSet_lookup hAS a2 (by rw [hlook, hv])
            simp [firstNonSentV, hnv, hlook]
          · rw [if_neg hAS]
            have hrec := ih (updateA r a2 f.value) f.value hlook
            rw [hrec]
            by_cases hv : f.value = -1
            · simp [firstNonSentV, hv]
            · simp [firstNonSentV, hv]
        · have hnc : ¬ lookupA r a2 = some (-1) := by
            rw [hc]
            intro hcc
            exact hcm (Option.some.inj hcc)
          rw [if_neg hnc]
          have hrec := ih r c hc
          rw [if_neg hcm] at hrec ⊢
          exact hrec
      · have hne : f.parameterId ≠ pid := by
          intro he
          rw [he, h1] at hP
          exact ha (Option.some.inj hP).symm
        have hocc : occValues pid (f :: rest) = occValues pid rest := by
          simp [occValues, List.filter_cons, hne]
        rw [hocc]
        by_cases hc2 : lookupA r a2 = some (-1)
        · rw [if_pos hc2]
          have hkeep : lookupA (updateA r a2 f.value) al = some c := by
            rw [lookupA_updateA_other r (fun he => ha he.symm) f.value, hc]
          by_cases hAS : allSet (updateA r a2 f.value) = true
          · rw [if_pos hAS]
            have hcne : c ≠ -1 := by
              intro hcm
              exact allSet_lookup hAS al (by rw [hkeep, hcm])
            rw [hkeep, if_neg hcne]
          · rw [if_neg hAS]
            exact ih (updateA r a2 f.value) c hkeep
        · rw [if_neg hc2]
          exact ih r c hc

theorem latest_values_char {pid al : String} (hmem : (pid, al) ∈ PARAMS) (p : Payload) :
    lookupA (latest_values p) al = some (firstNonSentV (occValues pid p.features)) := by
  have h1 := params_lookup_of_mem hmem
  have h2 : ∀ q, lookupA PARAMS q = some al → q = pid := fun q hq =>
    params_snd_inj (lookupA_mem hq) hmem rfl
  have hinit : lookupA lv_init al = some (-1) := by fin_cases hmem <;> decide
  have hmain := latest_go_char h1 h2 p.features lv_init (-1) hinit
  rw [latest_values, hmain, if_pos rfl]

theorem latest_values_keys (p : Payload) :
    (latest_values p).map Prod.fst = PARAMS.map Prod.snd := by
  rw [latest_values, latest_go_keys]
  decide

/-! ### Evaluation helpers for `pyRound` on rational literals -/

theorem pyRound_eq_intCast {q : ℚ} {n : ℤ} (h : q = (n:ℚ)) : pyRound q = n := by
  rw [h, pyRound_intCast]

theorem pyRound_eval {q : ℚ} {k n : ℤ} (hk : ⌊q⌋ = k) (hne : q - (k:ℚ) ≠ 1/2)
    (hn : ⌊q + 1/2⌋ = n) : pyRound q = n := by
  have hf : Int.fract q = q - (k:ℚ) := by rw [Int.fract, hk]
  rw [pyRound, hf, if_neg hne, round_eq, hn]

theorem pyRound_kt_five : pyRound (kt 5) = 10 :=
  pyRound_eval (k := 9) (by norm_num [kt]) (by norm_num [kt]) (by norm_num [kt])

theorem pyRound_kt_neg_one : pyRound (kt (-1)) = -2 :=
  pyRound_eval (k := -2) (by norm_num [kt]) (by norm_num [kt]) (by norm_num [kt])

theorem pyRound_cloud_height_twenty : pyRound ((20:ℚ) * 3.28084) = 66 :=
  pyRound_eval (k := 65) (by norm_num) (by norm_num) (by norm_num)

theorem pyRound_wdir_140 : pyRound ((140:ℚ) / 10) = 14 :=
  pyRound_eq_intCast (by norm_num)

theorem pyRound_six : pyRound ((6:ℚ)) = 6 := pyRound_eq_intCast (by norm_num)

theorem pyRound_four : pyRound ((4:ℚ)) = 4 := pyRound_eq_intCast (by norm_num)

theorem pyRound_qnh_1008 : pyRound ((1008:ℚ)) = 1008 := pyRound_eq_intCast (by norm_num)

/-! ### C6: cloud cover buckets -/

/-- C6: `cloud_code` maps cover percentage by inclusive upper bounds:
`≤0→NCD, ≤10→SKC, ≤25→FEW, ≤50→SCT, ≤90→BKN, else OVC`; in particular
`cloud_code 0 = "NCD"`, `cloud_code 10 = "SKC"`, `cloud_code 10.01 = "FEW"`,
`cloud_code 90 = "BKN"`, `cloud_code 90.01 = "OVC"`. -/
theorem c6_cloud_code_buckets :
    (∀ c : ℚ, c ≤ 0 → cloud_code c = "NCD") ∧
    (∀ c : ℚ, 0 < c → c ≤ 10 → cloud_code c = "SKC") ∧
    (∀ c : ℚ, 10 < c → c ≤ 25 → cloud_code c = "FEW") ∧
    (∀ c : ℚ, 25 < c → c ≤ 50 → cloud_code c = "SCT") ∧
    (∀ c : ℚ, 50 < c → c ≤ 90 → cloud_code c = "BKN") ∧
    (∀ c : ℚ, 90 < c → cloud_code c = "OVC") ∧
    cloud_code 0 = "NCD" ∧ cloud_code 10 = "SKC" ∧ cloud_code (1001/100) = "FEW" ∧
    cloud_code 90 = "BKN" ∧ cloud_code (9001/100) = "OVC" := by
  refine ⟨?_, ?_, ?_, ?_, ?_, ?_, ?_, ?_, ?_, ?_, ?_⟩
  · intro c h
    rw [cloud_code, if_pos h]
  · intro c h1 h2
    rw [cloud_code, if_neg (by linarith), if_pos h2]
  · intro c h1 h2
    rw [cloud_code, if_neg (by linarith), if_neg (by linarith), if_pos h2]
  · intro c h1 h2
    rw [cloud_code, if_neg (by linarith), if_neg (by linarith), if_neg (by linarith), if_pos h2]
  · intro c h1 h2
    rw [cloud_code, if_neg (by linarith), if_neg (by linarith), if_neg (by linarith),
      if_neg (by linarith), if_pos h2]
  · intro c h1
    rw [cloud_code, if_neg (by linarith), if_neg (by linarith), if_neg (by linarith),
      if_neg (by linarith), if_neg (by linarith)]
  · norm_num [cloud_code]
  · norm_num [cloud_code]
  · norm_num [cloud_code]
  · norm_num [cloud_code]
  · norm_num [cloud_code]

/-- Witness for C6 at a concrete cover value. -/
theorem c6_cloud_code_buckets_witness : cloud_code 42 = "SCT" :=
  c6_cloud_code_buckets.2.2.2.1 42 (by norm_num) (by norm_num)

/-! ### C4: visibility token -/

/-- C4 counterexample: the code yields `"9900"` for 9999 (not `"9999"`) and
`"4300"` for 4321 (not `"0043"`). -/
theorem c4_counterexample :
    vis_token 9999 = "9900" ∧ vis_token 4321 = "4300" ∧
    "9900" ≠ "9999" ∧ "4300" ≠ "0043" := by
  refine ⟨?_, ?_, by decide, by decide⟩
  · rw [vis_token, if_neg (by norm_num), if_neg (by norm_num),
      show ⌊(9999:ℚ)/100⌋ = 99 by norm_num]
    decide
  · rw [vis_token, if_neg (by norm_num), if_neg (by norm_num),
      show ⌊(4321:ℚ)/100⌋ = 43 by norm_num]
    decide

/-- C4 amended: the general bucket rule as claimed, with corrected examples:
`9999 ↦ "9900"`, `50 ↦ "0000"`, `4321 ↦ "4300"`. -/
theorem c4_visibility (v : ℚ) :
    (v > 9999 → vis_token v = "9999") ∧
    (v < 100 → vis_token v = "0000") ∧
    (100 ≤ v → v ≤ 9999 → vis_token v = pyZfill (toString ⌊v / 100⌋) 2 ++ "00") ∧
    vis_token 9999 = "9900" ∧ vis_token 50 = "0000" ∧ vis_token 4321 = "4300" := by
  refine ⟨?_, ?_, ?_, ?_, ?_, ?_⟩
  · intro h
    rw [vis_token, if_pos h]
  · intro h
    rw [vis_token, if_neg (by linarith), if_pos h]
  · intro h1 h2
    rw [vis_token, if_neg (by linarith), if_neg (by linarith)]
  · rw [vis_token, if_neg (by norm_num), if_neg (by norm_num),
      show ⌊(9999:ℚ)/100⌋ = 99 by norm_num]
    decide
  · rw [vis_token, if_neg (by norm_num), if_pos (by norm_num)]
  · rw [vis_token, if_neg (by norm_num), if_neg (by norm_num),
      show ⌊(4321:ℚ)/100⌋ = 43 by norm_num]
    decide

/-- Witness for C4 at a concrete distance. -/
theorem c4_visibility_witness : vis_token 12000 = "9999" :=
  (c4_visibility 12000).1 (by norm_num)

/-! ### C7: runway block and the inverted crosswind arrow -/

/-- C7: for every record the runway block is
`R<runway> HW<headwind zfill 2> XW<arrow><crosswind zfill 2>`, and the
arrow is the left-pointing glyph exactly when the crosswind side is
`"right"` (and right-pointing when `"left"`): the inversion is preserved. -/
theorem c7_runway_block (d : MetarData) :
    ∃ arrow : String,
      rwy_block d = "R" ++ (d.runway ++ (" HW" ++ (pyZfill (toString d.headwind_kt) 2 ++
        (" XW" ++ (arrow ++ pyZfill (toString d.crosswind_kt) 2))))) ∧
      (d.crosswind_from = "right" → arrow = "←") ∧
      (d.crosswind_from = "left" → arrow = "→") := by
  refine ⟨if d.crosswind_from = "right" then "←" else "→", rfl, ?_, ?_⟩
  · intro h
    rw [if_pos h]
  · intro h
    rw [if_neg (by rw [h]; decide)]

/-- A concrete record exercising the runway block. -/
def arrowRecord : MetarData :=
  ⟨"EKHK", "2024-01-16T12:50:00+00:00", 4, 6, 12000, 1008, 140, 5, -1, 30, 20,
   10, -2, "SCT", some 66, "10", 7, 6, "right"⟩

/-- Witness for C7: a right-side crosswind renders the left-pointing glyph. -/
theorem c7_runway_block_witness : rwy_block arrowRecord = "R10 HW07 XW←06" := by
  obtain ⟨arrow, h1, h2, _⟩ := c7_runway_block arrowRecord
  rw [h1, h2 rfl]
  decide

/-! ### C3: the gust token is emitted with a doubled G -/

/-- A record whose gust exceeds the speed by 11 kt (gust must be shown). -/
def gustRecordIncl : MetarData :=
  ⟨"EKHK", "2024-01-16T12:50:00+00:00", 4, 6, 9999, 1008, 140, 5, 11, 30, 20,
   10, 21, "SCT", some 66, "10", 7, 6, "right"⟩

/-- The same record with gust exceeding the speed by exactly 10 kt (omitted). -/
def gustRecordExcl : MetarData :=
  ⟨"EKHK", "2024-01-16T12:50:00+00:00", 4, 6, 9999, 1008, 140, 5, 10, 30, 20,
   10, 20, "SCT", some 66, "10", 7, 6, "right"⟩

/-- C3: the strict `> 10` threshold behaves as claimed (difference 11 shows the
gust, difference 10 omits it), but the shown token is `GG21`, not `G21`:
the f-string prepends a literal `G` to the gust string that already starts
with `G`. -/
theorem c3_gust_doubled :
    wind_line gustRecordIncl = "14010GG21KT \n" ∧
    wind_line gustRecordExcl = "14010KT \n" ∧
    "14010GG21KT \n" ≠ "14010G21KT \n" := by
  refine ⟨?_, ?_, by decide⟩
  · simp only [wind_line, gustRecordIncl]
    rw [pyRound_wdir_140]
    decide
  · simp only [wind_line, gustRecordExcl]
    rw [pyRound_wdir_140]
    decide

/-! ### C5: runway selection and wind components -/

theorem rac_runway (d s : ℚ) :
    (runway_and_components d s).runway = toString (runwayOf d) := rfl

theorem rac_headwind (d s : ℚ) :
    (runway_and_components d s).headwind_kt =
      |pyRound (Real.cos (radians ((offsetOf d : ℚ) : ℝ)) * ((kt s : ℚ) : ℝ))| := rfl

theorem rac_crosswind (d s : ℚ) :
    (runway_and_components d s).crosswind_kt =
      |pyRound (Real.sin (radians ((offsetOf d : ℚ) : ℝ)) * ((kt s : ℚ) : ℝ))| := rfl

theorem rac_from (d s : ℚ) :
    (runway_and_components d s).crosswind_from =
      if offsetOf d < 0 then "left" else "right" := rfl

/-- Zero wind speed yields zero head- and crosswind components. -/
theorem rac_zero_wind (wd : ℚ) :
    (runway_and_components wd 0).headwind_kt = 0 ∧
    (runway_and_components wd 0).crosswind_kt = 0 := by
  have hkt : kt (0:ℚ) = 0 := by norm_num [kt]
  constructor
  · rw [rac_headwind, hkt, Rat.cast_zero, mul_zero, pyRound_zero, abs_zero]
  · rw [rac_crosswind, hkt, Rat.cast_zero, mul_zero, pyRound_zero, abs_zero]

/-- C5: for every wind direction in `[0, 360)` and every speed,
`runway_and_components` selects runway `"10"` exactly when `10 < d < 190`
(else `"28"`); the headwind and crosswind are `round(|cos(offset)*kt|)` and
`round(|sin(offset)*kt|)`, both non-negative; and the crosswind side is
`"left"` exactly when the angular offset is negative. -/
theorem c5_runway_components (d s : ℚ) (_h0 : 0 ≤ d) (_h1 : d < 360) :
    ((runway_and_components d s).runway = "10" ↔ (10 < d ∧ d < 190)) ∧
    (runway_and_components d s).headwind_kt =
      pyRound |Real.cos (radians ((offsetOf d : ℚ) : ℝ)) * ((kt s : ℚ) : ℝ)| ∧
    (runway_and_components d s).crosswind_kt =
      pyRound |Real.sin (radians ((offsetOf d : ℚ) : ℝ)) * ((kt s : ℚ) : ℝ)| ∧
    0 ≤ (runway_and_components d s).headwind_kt ∧
    0 ≤ (runway_and_components d s).crosswind_kt ∧
    ((runway_and_components d s).crosswind_from = "left" ↔ offsetOf d < 0) := by
  refine ⟨?_, ?_, ?_, ?_, ?_, ?_⟩
  · rw [rac_runway, runwayOf]
    by_cases hc : 10 < d ∧ d < 190
    · rw [if_pos hc]
      simp only [hc, iff_true]
      decide
    · rw [if_neg hc]
      simp only [hc, iff_false]
      decide
  · rw [rac_headwind, pyRound_abs]
  · rw [rac_crosswind, pyRound_abs]
  · rw [rac_headwind]
    exact abs_nonneg _
  · rw [rac_crosswind]
    exact abs_nonneg _
  · rw [rac_from]
    by_cases hc : offsetOf d < 0
    · rw [if_pos hc]
      simp [hc]
    · rw [if_neg hc]
      simp only [hc, iff_false]
      decide

/-- Witness for C5 at direction 140 and speed 5 m/s. -/
theorem c5_runway_components_witness :
    ((runway_and_components 140 5).runway = "10" ↔ (10 < (140:ℚ) ∧ (140:ℚ) < 190)) ∧
    (runway_and_components 140 5).headwind_kt =
      pyRound |Real.cos (radians ((offsetOf 140 : ℚ) : ℝ)) * ((kt 5 : ℚ) : ℝ)| ∧
    (runway_and_components 140 5).crosswind_kt =
      pyRound |Real.sin (radians ((offsetOf 140 : ℚ) : ℝ)) * ((kt 5 : ℚ) : ℝ)| ∧
    0 ≤ (runway_and_components 140 5).headwind_kt ∧
    0 ≤ (runway_and_components 140 5).crosswind_kt ∧
    ((runway_and_components 140 5).crosswind_from = "left" ↔ offsetOf 140 < 0) :=
  c5_runway_components 140 5 (by norm_num) (by norm_num)

/-! ### C9: derived fields come as a group, zero wind gives zero components -/

/-- C9: every record produced by the builder carries the four derived
runway fields together as one `runway_and_components` result, and with zero
wind speed the headwind and crosswind are present with value zero. -/
theorem c9_derived_group (sid : String) (raw : Payload) (rec : MetarData)
    (h : build_metar_dict sid raw = some rec) :
    (rec.runway = (runway_and_components
        ((lookupA (latest_values raw) "wind_dir_deg").getD (-1))
        ((lookupA (latest_values raw) "wind_speed_ms").getD (-1))).runway ∧
     rec.headwind_kt = (runway_and_components
        ((lookupA (latest_values raw) "wind_dir_deg").getD (-1))
        ((lookupA (latest_values raw) "wind_speed_ms").getD (-1))).headwind_kt ∧
     rec.crosswind_kt = (runway_and_components
        ((lookupA (latest_values raw) "wind_dir_deg").getD (-1))
        ((lookupA (latest_values raw) "wind_speed_ms").getD (-1))).crosswind_kt ∧
     rec.crosswind_from = (runway_and_components
        ((lookupA (latest_values raw) "wind_dir_deg").getD (-1))
        ((lookupA (latest_values raw) "wind_speed_ms").getD (-1))).crosswind_from) ∧
    ((lookupA (latest_values raw) "wind_speed_ms").getD (-1) = 0 →
      rec.headwind_kt = 0 ∧ rec.crosswind_kt = 0) := by
  obtain ⟨feats⟩ := raw
  cases feats with
  | nil => exact Option.noConfusion h
  | cons f0 fs =>
    have h2 : Option.map (build_fields sid ⟨f0 :: fs⟩)
        (fromisoformat (strReplaceChar f0.observed 'Z' "+00:00")) = some rec := h
    rw [Option.map_eq_some'] at h2
    obtain ⟨dt, _, hrec⟩ := h2
    subst hrec
    refine ⟨⟨rfl, rfl, rfl, rfl⟩, ?_⟩
    intro hws
    have hw : (build_fields sid ⟨f0 :: fs⟩ dt).headwind_kt = (runway_and_components
        ((lookupA (latest_values ⟨f0 :: fs⟩) "wind_dir_deg").getD (-1))
        ((lookupA (latest_values ⟨f0 :: fs⟩) "wind_speed_ms").getD (-1))).headwind_kt := rfl
    have hx : (build_fields sid ⟨f0 :: fs⟩ dt).crosswind_kt = (runway_and_components
        ((lookupA (latest_values ⟨f0 :: fs⟩) "wind_dir_deg").getD (-1))
        ((lookupA (latest_values ⟨f0 :: fs⟩) "wind_speed_ms").getD (-1))).crosswind_kt := rfl
    rw [hw, hx, hws]
    exact rac_zero_wind _

/-- A payload reporting zero wind speed (other parameters stay at the sentinel). -/
def zeroWindPayload : Payload :=
  ⟨[⟨"wind_speed", 0, "2024-01-16T12:50:00Z"⟩]⟩

/-- Witness for C9 on a concrete zero-wind payload. -/
theorem c9_derived_group_witness :
    ∃ rec : MetarData, build_metar_dict "06156" zeroWindPayload = some rec ∧
      rec.headwind_kt = 0 ∧ rec.crosswind_kt = 0 := by
  refine ⟨build_fields "06156" zeroWindPayload ⟨2024, 1, 16, 12, 50, 0, some ('+', 0, 0)⟩,
    rfl, ?_⟩
  have hmain := c9_derived_group "06156" zeroWindPayload
    (build_fields "06156" zeroWindPayload ⟨2024, 1, 16, 12, 50, 0, some ('+', 0, 0)⟩) rfl
  exact hmain.2 (by decide)

/-! ### C8: one failing station never aborts the batch -/

/-- C8: if fetching or building station `sid` fails, the batch result for any
id list around it is exactly the batch result with `sid` removed: the failure
does not propagate, `sid` is omitted, and every other station is unaffected. -/
theorem c8_batch_skips_failures (fetch : String → Except String Payload)
    (ids1 ids2 : List String) (sid : String)
    (hfail : processStation fetch sid = none) (hne : ids1 ++ ids2 ≠ []) :
    get_metar fetch (ids1 ++ sid :: ids2) = get_metar fetch (ids1 ++ ids2) := by
  simp only [get_metar]
  rw [if_neg (by simp), if_neg (by simpa using hne)]
  rw [List.filterMap_append, List.filterMap_append]
  congr 1
  simp [List.filterMap_cons, hfail]

/-- A fixed single-feature payload served for every healthy station. -/
def healthyPayload : Payload :=
  ⟨[⟨"wind_speed", 5, "2024-01-16T12:50:00Z"⟩]⟩

/-- A fetch in which exactly the station `"bad"` fails. -/
def fetchWithFailure : String → Except String Payload :=
  fun sid => if sid = "bad" then .error "boom" else .ok healthyPayload

/-- Witness for C8: dropping the failed station leaves the batch unchanged. -/
theorem c8_batch_skips_failures_witness :
    get_metar fetchWithFailure (["06170"] ++ "bad" :: ["06156"]) =
      get_metar fetchWithFailure (["06170"] ++ ["06156"]) :=
  c8_batch_skips_failures fetchWithFailure ["06170"] ["06156"] "bad" rfl (by decide)

/-! ### C2 and C10: first-seen-wins and the sentinel collision -/

/-- A payload in which `wind_dir` occurs twice with different values, the
first occurrence carrying the sentinel value −1. -/
def sentinelPayload : Payload :=
  ⟨[⟨"wind_dir", -1, "2024-01-16T12:50:00Z"⟩,
    ⟨"wind_dir", 5, "2024-01-16T12:50:00Z"⟩]⟩

/-- C2 counterexample: on `sentinelPayload` the two `wind_dir` features carry
different values (−1 then 5), yet the extractor retains the **second**
occurrence, not the first. -/
theorem c2_counterexample :
    lookupA (latest_values sentinelPayload) "wind_dir_deg" = some 5 ∧
    ((-1 : ℚ) ≠ 5) := by
  exact ⟨by decide, by decide⟩

/-- C2 amended: the extractor returns exactly one entry per tracked parameter
(keys are precisely the nine aliases, in order), each holding the first
occurrence whose value differs from the sentinel −1 (and −1 when none does);
in particular first-occurrence-wins holds whenever the first value is not −1. -/
theorem c2_extractor_first_nonsentinel (p : Payload) :
    (latest_values p).map Prod.fst = PARAMS.map Prod.snd ∧
    (∀ pid al : String, (pid, al) ∈ PARAMS →
      lookupA (latest_values p) al = some (firstNonSentV (occValues pid p.features))) :=
  ⟨latest_values_keys p, fun _ _ hmem => latest_values_char hmem p⟩

/-- Witness for C2 on a concrete payload and tracked parameter. -/
theorem c2_extractor_first_nonsentinel_witness :
    lookupA (latest_values sentinelPayload) "wind_dir_deg" =
      some (firstNonSentV (occValues "wind_dir" sentinelPayload.features)) :=
  (c2_extractor_first_nonsentinel sentinelPayload).2 "wind_dir" "wind_dir_deg" (by decide)

/-- C10: a first occurrence carrying the sentinel −1 is indistinguishable from
an unset field: the result is determined by the remaining occurrences (a later
non-sentinel occurrence overwrites it), and the early-exit check `allSet`
never fires while any tracked field still holds −1. -/
theorem c10_sentinel_collision (p : Payload) (pid al : String) (tail : List ℚ)
    (hmem : (pid, al) ∈ PARAMS)
    (hocc : occValues pid p.features = -1 :: tail) :
    lookupA (latest_values p) al = some (firstNonSentV tail) ∧
    (∀ r : List (String × ℚ), allSet r = true → ∀ k : String, lookupA r k ≠ some (-1)) := by
  constructor
  · rw [latest_values_char hmem p, hocc]
    simp [firstNonSentV]
  · exact fun r hr k => allSet_lookup hr k

/-- Witness for C10: the later occurrence's value 5 overwrites the sentinel. -/
theorem c10_sentinel_collision_witness :
    lookupA (latest_values sentinelPayload) "wind_dir_deg" =
      some (firstNonSentV [(5:ℚ)]) :=
  (c10_sentinel_collision sentinelPayload "wind_dir" "wind_dir_deg" [5]
    (by decide) (by decide)).1

/-! ### C1: end-to-end report for station 06156 -/

/-- The end-to-end payload of the spec: wind 140°/5 m/s, cover 30 %, cloud
base 20 m, visibility 12000 m, QNH 1008, temperatures 6/4, observed
`2024-01-16T12:50:00Z`; no gust parameter is reported. -/
def c1Payload : Payload :=
  ⟨[⟨"wind_dir", 140, "2024-01-16T12:50:00Z"⟩,
    ⟨"wind_speed", 5, "2024-01-16T12:50:00Z"⟩,
    ⟨"cloud_cover", 30, "2024-01-16T12:50:00Z"⟩,
    ⟨"cloud_height", 20, "2024-01-16T12:50:00Z"⟩,
    ⟨"visib_mean_last10min", 12000, "2024-01-16T12:50:00Z"⟩,
    ⟨"pressure_at_sea", 1008, "2024-01-16T12:50:00Z"⟩,
    ⟨"temp_dry", 6, "2024-01-16T12:50:00Z"⟩,
    ⟨"temp_dew", 4, "2024-01-16T12:50:00Z"⟩]⟩

/-- The parsed observation instant `2024-01-16T12:50:00+00:00`. -/
def dtC1 : PyDateTime := ⟨2024, 1, 16, 12, 50, 0, some ('+', 0, 0)⟩

/-- The record the builder produces for `c1Payload`. -/
noncomputable def c1Record : MetarData := build_fields "06156" c1Payload dtC1

theorem c1Record_wind_line : wind_line c1Record = "14010KT \n" := by
  simp only [wind_line, metar_gust,
    show c1Record.wind_dir_deg = (140:ℚ) from rfl,
    show c1Record.wind_speed_kt = pyRound (kt 5) from rfl,
    show c1Record.wind_gust_kt = pyRound (kt (-1)) from rfl,
    pyRound_wdir_140, pyRound_kt_five, pyRound_kt_neg_one]
  decide

theorem c1Record_clouds : clouds_token c1Record = "SCT000" := by
  have hcf : c1Record.cloud_height_ft = some 66 := by
    rw [show c1Record.cloud_height_ft = some (pyRound ((20:ℚ) * 3.28084)) from rfl,
        pyRound_cloud_height_twenty]
  simp only [clouds_token]
  rw [hcf]
  decide

theorem c1Record_vis : vis_token c1Record.visibility_m = "9999" := by
  rw [show c1Record.visibility_m = (12000:ℚ) from rfl, vis_token, if_pos (by norm_num)]

theorem c1Record_temp : temp_dew_token c1Record = "6/4" := by
  simp only [temp_dew_token]
  rw [show c1Record.temp_dry_c = (6:ℚ) from rfl, show c1Record.temp_dew_c = (4:ℚ) from rfl,
      pyRound_six, pyRound_four]
  decide

theorem c1Record_qnh : qnh_token c1Record = "Q1008" := by
  simp only [qnh_token]
  rw [show c1Record.qnh_hpa = (1008:ℚ) from rfl, pyRound_qnh_1008]
  decide

theorem c1_string_assembly (s : String) :
    "EKHK" ++ (" METAR " ++ ("161250Z" ++ (" \n" ++ ("14010KT \n" ++ ("9999" ++ (" " ++
      ("SCT000" ++ (" " ++ ("Q1008" ++ (" " ++ ("6/4" ++ (" \n " ++ (s ++ "\n"))))))))))))) =
    "EKHK METAR 161250Z \n14010KT \n9999 SCT000 Q1008 6/4 \n " ++ (s ++ "\n") := by
  obtain ⟨l⟩ := s
  rfl

/-- C1 counterexample: on the claim's payload the builder's cloud token is
`"SCT000"` — cover 30 falls in the `≤ 50` SCT bucket — so it is not `"FEW"`
followed by the 3-digit height code, as the claim states. -/
theorem c1_counterexample :
    build_metar_dict "06156" c1Payload = some c1Record ∧
    clouds_token c1Record = "SCT000" ∧
    "SCT000" ≠ "FEW" ++ pyZfill (toString (Int.fdiv 66 100)) 3 :=
  ⟨rfl, c1Record_clouds, by decide⟩

/-- C1 (amended): the claim's payload builds a record whose report starts with
line `EKHK METAR 161250Z `, a wind line `14010KT ` (direction 140, speed 10 kt
zero-padded, suffix `KT`), visibility token `9999`, and cloud token **SCT**
(not FEW) followed by the 3-digit height code `000`. -/
theorem c1_end_to_end :
    build_metar_dict "06156" c1Payload = some c1Record ∧
    metar_string c1Record =
      some ("EKHK METAR 161250Z \n14010KT \n9999 SCT000 Q1008 6/4 \n " ++
        (rwy_block c1Record ++ "\n")) ∧
    wind_line c1Record = "14010KT \n" ∧
    clouds_token c1Record = "SCT" ++ pyZfill (toString (Int.fdiv 66 100)) 3 ∧
    vis_token c1Record.visibility_m = "9999" := by
  refine ⟨rfl, ?_, c1Record_wind_line, ?_, c1Record_vis⟩
  · have hms : metar_string c1Record =
        some (c1Record.station ++ (" METAR " ++ (strftimeDayHourMinZ dtC1 ++ (" \n" ++
          (wind_line c1Record ++ (vis_token c1Record.visibility_m ++ (" " ++
          (clouds_token c1Record ++ (" " ++ (qnh_token c1Record ++ (" " ++
          (temp_dew_token c1Record ++ (" \n " ++
          (rwy_block c1Record ++ "\n")))))))))))))) := by
      simp only [metar_string]
      rw [show fromisoformat c1Record.observed = some dtC1 from rfl, Option.map_some']
    rw [hms, show c1Record.station = "EKHK" from rfl,
        show strftimeDayHourMinZ dtC1 = "161250Z" from rfl,
        c1Record_wind_line, c1Record_vis, c1Record_clouds, c1Record_qnh, c1Record_temp]
    exact congrArg some (c1_string_assembly (rwy_block c1Record))
  · rw [c1Record_clouds]
    decide
